import Mathlib

/-!
Verification of the SaaS ROI calculator (src/src/App.tsx).

The component's only logic is: `validateInputs` (six sign checks building an
error record), `calculations` (the derived financial metrics, returning an
all-NaN record on invalid input), and `chartData` (a three-point projection).
JavaScript numbers are modelled by `FloatVal`: a rational, `NaN`, `Infinity`,
`-Infinity`, or `undefined` (the invalid-branch record of the source omits
the `firstYearAdjustedSavings` key, so reading it yields `undefined`).
All arithmetic in the source is exact on the inputs considered, so the
finite values are modelled by ℚ.
-/

/-- The `pricingModel` state: `'monthly' | 'annual'` (App.tsx line 109). -/
inductive PricingModel where
  | monthly
  | annual
deriving DecidableEq, Repr

/-- The six numeric input states plus the pricing model (App.tsx lines 103-109). -/
structure Inputs where
  licenseCost : ℚ
  numUsers : ℚ
  hoursSaved : ℚ
  hourlyRate : ℚ
  implementationCost : ℚ
  timeToValue : ℚ
  pricingModel : PricingModel
deriving DecidableEq, Repr

/-- A JavaScript number value (or `undefined`, read from a missing key). -/
inductive FloatVal where
  | nan
  | inf
  | neginf
  | fin (q : ℚ)
deriving DecidableEq, Repr

/-- `isNaN` on a stored value (App.tsx line 191 guard). -/
def FloatVal.isNaN : FloatVal → Bool
  | .nan => true
  | _ => false

/-- JavaScript subtraction `a - b` on `FloatVal` (used at App.tsx line 199).
`undefined` or `NaN` operands give `NaN`. -/
def FloatVal.sub : FloatVal → FloatVal → FloatVal
  | .fin a, .fin b => .fin (a - b)
  | .inf, .fin _ => .inf
  | .inf, .neginf => .inf
  | .neginf, .fin _ => .neginf
  | .neginf, .inf => .neginf
  | .fin _, .inf => .neginf
  | .fin _, .neginf => .inf
  | _, _ => .nan

/-- JavaScript `x ?? 0` (App.tsx line 199): only `undefined` (here also absent
`null`) falls back to `0`; `NaN` and infinities pass through. -/
def FloatVal.orElseZero : FloatVal → FloatVal
  | .fin q => .fin q
  | .inf => .inf
  | .neginf => .neginf
  | .nan => .nan

/-- The `InputErrors` record built by `validateInputs` (App.tsx lines 9-16). -/
structure InputErrors where
  licenseCost : Option String
  numUsers : Option String
  hoursSaved : Option String
  hourlyRate : Option String
  implementationCost : Option String
  timeToValue : Option String
deriving DecidableEq, Repr

/-- The `newErrors` record assembled by `validateInputs` (App.tsx lines 114-120):
a message is present exactly when the corresponding check fires. -/
def validateErrors (i : Inputs) : InputErrors where
  licenseCost := if i.licenseCost < 0 then some "Cannot be negative." else none
  numUsers := if i.numUsers < 1 then some "Must be at least 1." else none
  hoursSaved := if i.hoursSaved < 0 then some "Cannot be negative." else none
  hourlyRate := if i.hourlyRate < 0 then some "Cannot be negative." else none
  implementationCost := if i.implementationCost < 0 then some "Cannot be negative." else none
  timeToValue := if i.timeToValue < 0 then some "Cannot be negative." else none

/-- `Object.keys(newErrors).length`: the number of keys present in the error
record (App.tsx line 122). -/
def InputErrors.numErrors (e : InputErrors) : Nat :=
  (if e.licenseCost.isSome then 1 else 0) +
  (if e.numUsers.isSome then 1 else 0) +
  (if e.hoursSaved.isSome then 1 else 0) +
  (if e.hourlyRate.isSome then 1 else 0) +
  (if e.implementationCost.isSome then 1 else 0) +
  (if e.timeToValue.isSome then 1 else 0)

/-- `validateInputs` (App.tsx lines 113-123): true iff the error record is empty. -/
def validateInputs (i : Inputs) : Bool :=
  (validateErrors i).numErrors == 0

/-- `actualLicenseCost` (App.tsx line 141). -/
def actualLicenseCost (i : Inputs) : ℚ :=
  if i.pricingModel = .annual then i.licenseCost else i.licenseCost * 12

/-- `annualLicenseCost` (App.tsx line 142). -/
def annualLicenseCost (i : Inputs) : ℚ :=
  actualLicenseCost i * i.numUsers

/-- `weeklySavingsPerUser` (App.tsx line 144). -/
def weeklySavingsPerUser (i : Inputs) : ℚ :=
  i.hoursSaved * i.hourlyRate

/-- `totalWeeklySavings` (App.tsx line 145). -/
def totalWeeklySavings (i : Inputs) : ℚ :=
  weeklySavingsPerUser i * i.numUsers

/-- `annualSavings` (App.tsx line 146). -/
def annualSavings (i : Inputs) : ℚ :=
  totalWeeklySavings i * 52

/-- `firstYearTotalCost` (App.tsx line 148). -/
def firstYearTotalCost (i : Inputs) : ℚ :=
  annualLicenseCost i + i.implementationCost

/-- `annualNetValue` (App.tsx line 149). -/
def annualNetValue (i : Inputs) : ℚ :=
  annualSavings i - annualLicenseCost i

/-- `annualROI` (App.tsx lines 152-157): starts at `0`, becomes the ratio when
`firstYearTotalCost > 0`, else `Infinity` when `annualNetValue > 0`. -/
def annualROI (i : Inputs) : FloatVal :=
  if firstYearTotalCost i > 0 then
    .fin (annualNetValue i / firstYearTotalCost i * 100)
  else if annualNetValue i > 0 then
    .inf
  else
    .fin 0

/-- `monthlyNetSavings` (App.tsx line 159). -/
def monthlyNetSavings (i : Inputs) : ℚ :=
  (annualSavings i - annualLicenseCost i) / 12

/-- `paybackPeriodMonths` (App.tsx lines 162-166): defaults to `Infinity`,
finite only when `monthlyNetSavings > 0`. -/
def paybackPeriodMonths (i : Inputs) : FloatVal :=
  if monthlyNetSavings i > 0 then
    .fin (i.timeToValue + i.implementationCost / monthlyNetSavings i)
  else
    .inf

/-- `firstYearEffectiveMonthsOfSavings` (App.tsx line 169). -/
def firstYearEffectiveMonthsOfSavings (i : Inputs) : ℚ :=
  max 0 (12 - i.timeToValue)

/-- `firstYearAdjustedSavings` (App.tsx line 170). -/
def firstYearAdjustedSavings (i : Inputs) : ℚ :=
  annualSavings i * (firstYearEffectiveMonthsOfSavings i / 12)

/-- `totalSavingsOver3Years` (App.tsx line 173). -/
def totalSavingsOver3Years (i : Inputs) : ℚ :=
  firstYearAdjustedSavings i + annualSavings i * 2

/-- The record returned by the `calculations` memo (App.tsx lines 129-138 and
176-186). The invalid-branch object literal has no `firstYearAdjustedSavings`
key, so that field is `undefined` there; it is modelled as an `Option`. -/
structure Calc where
  annualSavings : FloatVal
  firstYearAdjustedSavings : Option FloatVal
  firstYearTotalCost : FloatVal
  annualROI : FloatVal
  paybackPeriodMonths : FloatVal
  annualNetValue : FloatVal
  annualLicenseCost : FloatVal
  totalSavingsOver3Years : FloatVal
  monthlyNetSavings : FloatVal
deriving DecidableEq, Repr

/-- `calculations` (App.tsx lines 126-187): the all-NaN record on invalid
input, otherwise the derived metrics. -/
def calculations (i : Inputs) : Calc :=
  if validateInputs i then
    { annualSavings := .fin (annualSavings i)
      firstYearAdjustedSavings := some (.fin (firstYearAdjustedSavings i))
      firstYearTotalCost := .fin (firstYearTotalCost i)
      annualROI := annualROI i
      paybackPeriodMonths := paybackPeriodMonths i
      annualNetValue := .fin (annualNetValue i)
      annualLicenseCost := .fin (annualLicenseCost i)
      totalSavingsOver3Years := .fin (totalSavingsOver3Years i)
      monthlyNetSavings := .fin (monthlyNetSavings i) }
  else
    { annualSavings := .nan
      firstYearAdjustedSavings := none
      firstYearTotalCost := .nan
      annualROI := .nan
      paybackPeriodMonths := .nan
      annualNetValue := .nan
      annualLicenseCost := .nan
      totalSavingsOver3Years := .nan
      monthlyNetSavings := .nan }

/-- One data point of the chart series (App.tsx lines 192-205). -/
structure ChartPoint where
  name : String
  cost : FloatVal
  savings : FloatVal
  netValue : FloatVal
deriving DecidableEq, Repr

/-- Reading a possibly-absent record field yields `undefined`; `x ?? 0` on it
(App.tsx line 199). -/
def coalesceZero : Option FloatVal → FloatVal
  | some v => v.orElseZero
  | none => .fin 0

/-- `chartData` (App.tsx lines 190-206): three zero points when the
calculations are invalid, otherwise the Year 1/2/3 projection. -/
def chartData (i : Inputs) : List ChartPoint :=
  let c := calculations i
  if c.firstYearTotalCost.isNaN then
    [⟨"Year 1", .fin 0, .fin 0, .fin 0⟩,
     ⟨"Year 2", .fin 0, .fin 0, .fin 0⟩,
     ⟨"Year 3", .fin 0, .fin 0, .fin 0⟩]
  else
    let year1NetValue := (coalesceZero c.firstYearAdjustedSavings).sub c.firstYearTotalCost.orElseZero
    [⟨"Year 1", c.firstYearTotalCost, coalesceZero c.firstYearAdjustedSavings, year1NetValue⟩,
     ⟨"Year 2", c.annualLicenseCost, c.annualSavings, c.annualNetValue⟩,
     ⟨"Year 3", c.annualLicenseCost, c.annualSavings, c.annualNetValue⟩]

/-- The example/default input of the source (App.tsx lines 103-109, 474-479). -/
def exampleInput : Inputs :=
  { licenseCost := 50
    numUsers := 10
    hoursSaved := 5
    hourlyRate := 75
    implementationCost := 5000
    timeToValue := 3
    pricingModel := .monthly }

/-- A fractional-user-count input: `numUsers = 1.5`, everything else as in the
example. -/
def fractionalInput : Inputs :=
  { licenseCost := 50
    numUsers := 3 / 2
    hoursSaved := 5
    hourlyRate := 75
    implementationCost := 5000
    timeToValue := 3
    pricingModel := .monthly }

/-- An invalid input: `hourlyRate = -1`, everything else as in the example. -/
def invalidInput : Inputs :=
  { licenseCost := 50
    numUsers := 10
    hoursSaved := 5
    hourlyRate := -1
    implementationCost := 5000
    timeToValue := 3
    pricingModel := .monthly }

theorem validateInputs_iff (i : Inputs) :
    validateInputs i = true ↔
      0 ≤ i.licenseCost ∧ 1 ≤ i.numUsers ∧ 0 ≤ i.hoursSaved ∧
      0 ≤ i.hourlyRate ∧ 0 ≤ i.implementationCost ∧ 0 ≤ i.timeToValue := by
  simp [validateInputs, validateErrors, InputErrors.numErrors,
    apply_ite Option.isSome, Nat.add_eq_zero, ite_eq_right_iff, not_lt, and_assoc]

theorem calculations_valid (i : Inputs) (h : validateInputs i = true) :
    calculations i =
      { annualSavings := .fin (annualSavings i)
        firstYearAdjustedSavings := some (.fin (firstYearAdjustedSavings i))
        firstYearTotalCost := .fin (firstYearTotalCost i)
        annualROI := annualROI i
        paybackPeriodMonths := paybackPeriodMonths i
        annualNetValue := .fin (annualNetValue i)
        annualLicenseCost := .fin (annualLicenseCost i)
        totalSavingsOver3Years := .fin (totalSavingsOver3Years i)
        monthlyNetSavings := .fin (monthlyNetSavings i) } := by
  simp [calculations, h]

theorem calculations_invalid (i : Inputs) (h : validateInputs i = false) :
    calculations i =
      { annualSavings := .nan
        firstYearAdjustedSavings := none
        firstYearTotalCost := .nan
        annualROI := .nan
        paybackPeriodMonths := .nan
        annualNetValue := .nan
        annualLicenseCost := .nan
        totalSavingsOver3Years := .nan
        monthlyNetSavings := .nan } := by
  simp [calculations, h]

theorem exampleInput_valid : validateInputs exampleInput = true := by
  rw [validateInputs_iff]
  norm_num [exampleInput]

theorem fractionalInput_valid : validateInputs fractionalInput = true := by
  rw [validateInputs_iff]
  norm_num [fractionalInput]

theorem invalidInput_not_valid : validateInputs invalidInput = false := by
  have h : ¬ (validateInputs invalidInput = true) := by
    rw [validateInputs_iff]
    norm_num [invalidInput]
  simpa using h

theorem monthly_ne_annual : PricingModel.monthly ≠ PricingModel.annual := by
  simp

theorem calculations_example :
    calculations exampleInput =
      { annualSavings := .fin 195000
        firstYearAdjustedSavings := some (.fin 146250)
        firstYearTotalCost := .fin 11000
        annualROI := .fin (18900 / 11)
        paybackPeriodMonths := .fin (209 / 63)
        annualNetValue := .fin 189000
        annualLicenseCost := .fin 6000
        totalSavingsOver3Years := .fin 536250
        monthlyNetSavings := .fin 15750 } := by
  rw [calculations_valid exampleInput exampleInput_valid]
  norm_num [annualSavings, totalWeeklySavings, weeklySavingsPerUser, annualLicenseCost,
    actualLicenseCost, firstYearTotalCost, annualNetValue, annualROI, monthlyNetSavings,
    paybackPeriodMonths, firstYearAdjustedSavings, firstYearEffectiveMonthsOfSavings,
    totalSavingsOver3Years, exampleInput, monthly_ne_annual]

theorem calculations_fractional :
    calculations fractionalInput =
      { annualSavings := .fin 29250
        firstYearAdjustedSavings := some (.fin (43875 / 2))
        firstYearTotalCost := .fin 5900
        annualROI := .fin (28350 / 59)
        paybackPeriodMonths := .fin (967 / 189)
        annualNetValue := .fin 28350
        annualLicenseCost := .fin 900
        totalSavingsOver3Years := .fin (160875 / 2)
        monthlyNetSavings := .fin (4725 / 2) } := by
  rw [calculations_valid fractionalInput fractionalInput_valid]
  norm_num [annualSavings, totalWeeklySavings, weeklySavingsPerUser, annualLicenseCost,
    actualLicenseCost, firstYearTotalCost, annualNetValue, annualROI, monthlyNetSavings,
    paybackPeriodMonths, firstYearAdjustedSavings, firstYearEffectiveMonthsOfSavings,
    totalSavingsOver3Years, fractionalInput, monthly_ne_annual]

/-- All eight output fields of the invalid-branch record are the NaN sentinel. -/
def allOutputsNaN (c : Calc) : Prop :=
  c.annualSavings = .nan ∧ c.firstYearTotalCost = .nan ∧ c.annualROI = .nan ∧
  c.paybackPeriodMonths = .nan ∧ c.annualNetValue = .nan ∧ c.annualLicenseCost = .nan ∧
  c.totalSavingsOver3Years = .nan ∧ c.monthlyNetSavings = .nan

/-- None of the eight output fields is the NaN sentinel. -/
def noOutputNaN (c : Calc) : Prop :=
  c.annualSavings ≠ .nan ∧ c.firstYearTotalCost ≠ .nan ∧ c.annualROI ≠ .nan ∧
  c.paybackPeriodMonths ≠ .nan ∧ c.annualNetValue ≠ .nan ∧ c.annualLicenseCost ≠ .nan ∧
  c.totalSavingsOver3Years ≠ .nan ∧ c.monthlyNetSavings ≠ .nan

/-- C1: for every valid input, `annualROI` follows the three-way branch:
`(annualNetValue / firstYearTotalCost) * 100` when `firstYearTotalCost > 0`,
else `+Infinity` when `annualNetValue > 0`, else `0`. -/
theorem roi_three_way_branch (i : Inputs) (h : validateInputs i = true)
    (ftc nv : ℚ)
    (hftc : (calculations i).firstYearTotalCost = .fin ftc)
    (hnv : (calculations i).annualNetValue = .fin nv) :
    (calculations i).annualROI =
      if 0 < ftc then FloatVal.fin (nv / ftc * 100)
      else if 0 < nv then FloatVal.inf
      else FloatVal.fin 0 := by
  simp only [calculations_valid i h] at hftc hnv ⊢
  injection hftc with h1
  injection hnv with h2
  subst h1
  subst h2
  rfl

/-- Witness for C1 at the example input. -/
theorem roi_three_way_branch_witness :
    validateInputs exampleInput = true ∧
    (calculations exampleInput).firstYearTotalCost = .fin 11000 ∧
    (calculations exampleInput).annualNetValue = .fin 189000 ∧
    (calculations exampleInput).annualROI =
      (if (0 : ℚ) < 11000 then FloatVal.fin (189000 / 11000 * 100)
       else if (0 : ℚ) < 189000 then FloatVal.inf
       else FloatVal.fin 0) :=
  ⟨exampleInput_valid, by rw [calculations_example], by rw [calculations_example],
   roi_three_way_branch exampleInput exampleInput_valid 11000 189000
     (by rw [calculations_example]) (by rw [calculations_example])⟩

/-- C2: for every valid input, `monthlyNetSavings = (annualSavings −
annualLicenseCost) / 12`, and `paybackPeriodMonths` is
`timeToValue + implementationCost / monthlyNetSavings` when
`monthlyNetSavings > 0`, else `+Infinity`. -/
theorem payback_branch (i : Inputs) (h : validateInputs i = true)
    (asv alc mns : ℚ)
    (hasv : (calculations i).annualSavings = .fin asv)
    (halc : (calculations i).annualLicenseCost = .fin alc)
    (hmns : (calculations i).monthlyNetSavings = .fin mns) :
    mns = (asv - alc) / 12 ∧
    (calculations i).paybackPeriodMonths =
      (if 0 < mns then FloatVal.fin (i.timeToValue + i.implementationCost / mns)
       else FloatVal.inf) := by
  simp only [calculations_valid i h] at hasv halc hmns ⊢
  injection hasv with h1
  injection halc with h2
  injection hmns with h3
  subst h1
  subst h2
  subst h3
  exact ⟨rfl, rfl⟩

/-- Witness for C2 at the example input. -/
theorem payback_branch_witness :
    validateInputs exampleInput = true ∧
    (calculations exampleInput).annualSavings = .fin 195000 ∧
    (calculations exampleInput).annualLicenseCost = .fin 6000 ∧
    (calculations exampleInput).monthlyNetSavings = .fin 15750 ∧
    ((15750 : ℚ) = (195000 - 6000) / 12 ∧
     (calculations exampleInput).paybackPeriodMonths =
       (if (0 : ℚ) < 15750 then
          FloatVal.fin (exampleInput.timeToValue + exampleInput.implementationCost / 15750)
        else FloatVal.inf)) :=
  ⟨exampleInput_valid, by rw [calculations_example], by rw [calculations_example],
   by rw [calculations_example],
   payback_branch exampleInput exampleInput_valid 195000 6000 15750
     (by rw [calculations_example]) (by rw [calculations_example]) (by rw [calculations_example])⟩

/-- C3: validation failure collapses every one of the eight output fields to
the NaN sentinel, and on success none of them is the sentinel — there is no
input with a mix of derived values and sentinels. -/
theorem invalid_all_or_nothing (i : Inputs) :
    (validateInputs i = false → allOutputsNaN (calculations i)) ∧
    (validateInputs i = true → noOutputNaN (calculations i)) := by
  constructor
  · intro h
    rw [calculations_invalid i h]
    exact ⟨rfl, rfl, rfl, rfl, rfl, rfl, rfl, rfl⟩
  · intro h
    rw [calculations_valid i h]
    refine ⟨by simp, by simp, ?_, ?_, by simp, by simp, by simp, by simp⟩
    · show annualROI i ≠ .nan
      rw [annualROI]
      split_ifs <;> simp
    · show paybackPeriodMonths i ≠ .nan
      rw [paybackPeriodMonths]
      split_ifs <;> simp

/-- Witness for C3: the invalid half at `hourlyRate = -1`, the valid half at
the example input. -/
theorem invalid_all_or_nothing_witness :
    (validateInputs invalidInput = false ∧ allOutputsNaN (calculations invalidInput)) ∧
    (validateInputs exampleInput = true ∧ noOutputNaN (calculations exampleInput)) :=
  ⟨⟨invalidInput_not_valid, (invalid_all_or_nothing invalidInput).1 invalidInput_not_valid⟩,
   ⟨exampleInput_valid, (invalid_all_or_nothing exampleInput).2 exampleInput_valid⟩⟩

/-- C4: validation fails iff one of the six constraints is violated, and each
error-record field is present exactly when its constraint is violated. -/
theorem validation_exact_fields (i : Inputs) :
    (validateInputs i = false ↔
      (i.licenseCost < 0 ∨ i.numUsers < 1 ∨ i.hoursSaved < 0 ∨ i.hourlyRate < 0 ∨
       i.implementationCost < 0 ∨ i.timeToValue < 0)) ∧
    ((validateErrors i).licenseCost.isSome = true ↔ i.licenseCost < 0) ∧
    ((validateErrors i).numUsers.isSome = true ↔ i.numUsers < 1) ∧
    ((validateErrors i).hoursSaved.isSome = true ↔ i.hoursSaved < 0) ∧
    ((validateErrors i).hourlyRate.isSome = true ↔ i.hourlyRate < 0) ∧
    ((validateErrors i).implementationCost.isSome = true ↔ i.implementationCost < 0) ∧
    ((validateErrors i).timeToValue.isSome = true ↔ i.timeToValue < 0) := by
  refine ⟨?_, ?_, ?_, ?_, ?_, ?_, ?_⟩
  · rw [← Bool.not_eq_true, validateInputs_iff]
    simp only [not_and_or, not_le]
  all_goals
    simp only [validateErrors]
    split_ifs with hc <;> simp [hc]

/-- C5: for every valid input, `annualLicenseCost = numUsers ×
(pricingModel == annual ? licenseCostPerUser : licenseCostPerUser × 12)` and
`annualSavings = hoursSaved × hourlyRate × numUsers × 52`. -/
theorem license_and_savings_formulas (i : Inputs) (h : validateInputs i = true) :
    (calculations i).annualLicenseCost =
      .fin (i.numUsers *
        (if i.pricingModel = PricingModel.annual then i.licenseCost else i.licenseCost * 12)) ∧
    (calculations i).annualSavings =
      .fin (i.hoursSaved * i.hourlyRate * i.numUsers * 52) := by
  rw [calculations_valid i h]
  constructor
  · show FloatVal.fin (annualLicenseCost i) = _
    rw [annualLicenseCost, actualLicenseCost, mul_comm]
  · show FloatVal.fin (annualSavings i) = _
    rw [annualSavings, totalWeeklySavings, weeklySavingsPerUser]

/-- Witness for C5 at the example input. -/
theorem license_and_savings_formulas_witness :
    validateInputs exampleInput = true ∧
    ((calculations exampleInput).annualLicenseCost =
      .fin (exampleInput.numUsers *
        (if exampleInput.pricingModel = PricingModel.annual then exampleInput.licenseCost
         else exampleInput.licenseCost * 12)) ∧
     (calculations exampleInput).annualSavings =
      .fin (exampleInput.hoursSaved * exampleInput.hourlyRate * exampleInput.numUsers * 52)) :=
  ⟨exampleInput_valid, license_and_savings_formulas exampleInput exampleInput_valid⟩

/-- C6: for every valid input, `firstYearAdjustedSavings = annualSavings ×
(max(0, 12 − timeToValueMonths) / 12)`, and `totalSavingsOver3Years =
firstYearAdjustedSavings + annualSavings × 2`. -/
theorem ramp_up_formulas (i : Inputs) (h : validateInputs i = true)
    (asv fya : ℚ)
    (hasv : (calculations i).annualSavings = .fin asv)
    (hfya : (calculations i).firstYearAdjustedSavings = some (.fin fya)) :
    fya = asv * (max 0 (12 - i.timeToValue) / 12) ∧
    (calculations i).totalSavingsOver3Years = .fin (fya + asv * 2) := by
  simp only [calculations_valid i h] at hasv hfya ⊢
  injection hasv with h1
  injection hfya with h2
  injection h2 with h3
  subst h1
  subst h3
  exact ⟨rfl, rfl⟩

/-- Witness for C6 at the example input. -/
theorem ramp_up_formulas_witness :
    validateInputs exampleInput = true ∧
    (calculations exampleInput).annualSavings = .fin 195000 ∧
    (calculations exampleInput).firstYearAdjustedSavings = some (.fin 146250) ∧
    ((146250 : ℚ) = 195000 * (max 0 (12 - exampleInput.timeToValue) / 12) ∧
     (calculations exampleInput).totalSavingsOver3Years = .fin (146250 + 195000 * 2)) :=
  ⟨exampleInput_valid, by rw [calculations_example], by rw [calculations_example],
   ramp_up_formulas exampleInput exampleInput_valid 195000 146250
     (by rw [calculations_example]) (by rw [calculations_example])⟩

/-- C7: the end-to-end example: `{licenseCostPerUser: 50, numUsers: 10,
hoursSavedPerUserPerWeek: 5, hourlyRate: 75, implementationCost: 5000,
timeToValueMonths: 3, pricingModel: monthly}` yields `annualLicenseCost =
6000`, `annualSavings = 195000`, `firstYearTotalCost = 11000`,
`annualNetValue = 189000`, `annualROI = 18900/11 ≈ 1718.2`,
`monthlyNetSavings = 15750`, `paybackPeriodMonths = 209/63 ≈ 3.317`,
`firstYearAdjustedSavings = 146250`, `totalSavingsOver3Years = 536250`. -/
theorem end_to_end_example :
    (calculations exampleInput).annualLicenseCost = .fin 6000 ∧
    (calculations exampleInput).annualSavings = .fin 195000 ∧
    (calculations exampleInput).firstYearTotalCost = .fin 11000 ∧
    (calculations exampleInput).annualNetValue = .fin 189000 ∧
    (calculations exampleInput).annualROI = .fin (18900 / 11) ∧
    |(18900 : ℚ) / 11 - 1718.2| < 1 / 10 ∧
    (calculations exampleInput).monthlyNetSavings = .fin 15750 ∧
    (calculations exampleInput).paybackPeriodMonths = .fin (209 / 63) ∧
    |(209 : ℚ) / 63 - 3.317| < 1 / 100 ∧
    (calculations exampleInput).firstYearAdjustedSavings = some (.fin 146250) ∧
    (calculations exampleInput).totalSavingsOver3Years = .fin 536250 := by
  rw [calculations_example]
  norm_num [abs_lt]

/-- C8: the chart projection has exactly three yearly points: on valid input,
Year 1 carries `firstYearTotalCost` / `firstYearAdjustedSavings` /
their difference, Years 2 and 3 carry `annualLicenseCost` / `annualSavings` /
`annualNetValue`; on invalid input all three points are zero. -/
theorem chart_projection (i : Inputs) :
    (∀ ftc fya alc asv anv : ℚ,
      validateInputs i = true →
      (calculations i).firstYearTotalCost = .fin ftc →
      (calculations i).firstYearAdjustedSavings = some (.fin fya) →
      (calculations i).annualLicenseCost = .fin alc →
      (calculations i).annualSavings = .fin asv →
      (calculations i).annualNetValue = .fin anv →
      chartData i =
        [{ name := "Year 1", cost := .fin ftc, savings := .fin fya, netValue := .fin (fya - ftc) },
         { name := "Year 2", cost := .fin alc, savings := .fin asv, netValue := .fin anv },
         { name := "Year 3", cost := .fin alc, savings := .fin asv, netValue := .fin anv }]) ∧
    (validateInputs i = false →
      chartData i =
        [{ name := "Year 1", cost := .fin 0, savings := .fin 0, netValue := .fin 0 },
         { name := "Year 2", cost := .fin 0, savings := .fin 0, netValue := .fin 0 },
         { name := "Year 3", cost := .fin 0, savings := .fin 0, netValue := .fin 0 }]) := by
  constructor
  · intro ftc fya alc asv anv h hftc hfya halc hasv hanv
    simp only [calculations_valid i h] at hftc hfya halc hasv hanv
    injection hftc with h1
    injection hfya with h2
    injection h2 with h2a
    injection halc with h3
    injection hasv with h4
    injection hanv with h5
    subst h1
    subst h2a
    subst h3
    subst h4
    subst h5
    simp [chartData, calculations_valid i h, FloatVal.isNaN, coalesceZero,
      FloatVal.orElseZero, FloatVal.sub]
  · intro h
    simp [chartData, calculations_invalid i h, FloatVal.isNaN]

/-- Witness for C8: the valid half at the example input, the invalid half at
`hourlyRate = -1`. -/
theorem chart_projection_witness :
    (validateInputs exampleInput = true ∧
     (calculations exampleInput).firstYearTotalCost = .fin 11000 ∧
     (calculations exampleInput).firstYearAdjustedSavings = some (.fin 146250) ∧
     (calculations exampleInput).annualLicenseCost = .fin 6000 ∧
     (calculations exampleInput).annualSavings = .fin 195000 ∧
     (calculations exampleInput).annualNetValue = .fin 189000 ∧
     chartData exampleInput =
       [{ name := "Year 1", cost := .fin 11000, savings := .fin 146250,
          netValue := .fin (146250 - 11000) },
        { name := "Year 2", cost := .fin 6000, savings := .fin 195000, netValue := .fin 189000 },
        { name := "Year 3", cost := .fin 6000, savings := .fin 195000,
          netValue := .fin 189000 }]) ∧
    (validateInputs invalidInput = false ∧
     chartData invalidInput =
       [{ name := "Year 1", cost := .fin 0, savings := .fin 0, netValue := .fin 0 },
        { name := "Year 2", cost := .fin 0, savings := .fin 0, netValue := .fin 0 },
        { name := "Year 3", cost := .fin 0, savings := .fin 0, netValue := .fin 0 }]) :=
  ⟨⟨exampleInput_valid, by rw [calculations_example], by rw [calculations_example],
    by rw [calculations_example], by rw [calculations_example], by rw [calculations_example],
    (chart_projection exampleInput).1 11000 146250 6000 195000 189000 exampleInput_valid
      (by rw [calculations_example]) (by rw [calculations_example])
      (by rw [calculations_example]) (by rw [calculations_example])
      (by rw [calculations_example])⟩,
   ⟨invalidInput_not_valid, (chart_projection invalidInput).2 invalidInput_not_valid⟩⟩

/-- C9: for every valid input the ROI is bounded below by −100: it is either
`+Infinity` or a finite value `≥ −100`. -/
theorem roi_lower_bound (i : Inputs) (h : validateInputs i = true) :
    (calculations i).annualROI = FloatVal.inf ∨
    ∃ q : ℚ, (calculations i).annualROI = FloatVal.fin q ∧ -100 ≤ q := by
  obtain ⟨-, hu, hh, hr, him, -⟩ := (validateInputs_iff i).1 h
  have hasv : 0 ≤ annualSavings i := by
    have h0 : (0 : ℚ) ≤ i.numUsers := le_trans zero_le_one hu
    have hm := mul_nonneg (mul_nonneg (mul_nonneg hh hr) h0) (by norm_num : (0 : ℚ) ≤ 52)
    simpa [annualSavings, totalWeeklySavings, weeklySavingsPerUser] using hm
  have hroi : (calculations i).annualROI = annualROI i := by
    rw [calculations_valid i h]
  rw [hroi, annualROI]
  split_ifs with h1 h2
  · right
    refine ⟨_, rfl, ?_⟩
    have key : -(firstYearTotalCost i) ≤ annualNetValue i := by
      rw [annualNetValue, firstYearTotalCost]
      linarith
    rw [div_mul_eq_mul_div, le_div_iff₀ h1]
    linarith
  · left
    rfl
  · right
    exact ⟨0, rfl, by norm_num⟩

/-- Witness for C9 at the example input. -/
theorem roi_lower_bound_witness :
    validateInputs exampleInput = true ∧
    ((calculations exampleInput).annualROI = FloatVal.inf ∨
     ∃ q : ℚ, (calculations exampleInput).annualROI = FloatVal.fin q ∧ -100 ≤ q) :=
  ⟨exampleInput_valid, roi_lower_bound exampleInput exampleInput_valid⟩

/-- C10: validation accepts a non-integer user count: `numUsers = 1.5` with
all other fields as in the example passes (the error record is empty) and the
derivation runs on the fractional count; the error on `numUsers` fires exactly
when `numUsers < 1`. -/
theorem fractional_users_accepted :
    fractionalInput.numUsers = 3 / 2 ∧
    (¬ ∃ n : ℤ, fractionalInput.numUsers = (n : ℚ)) ∧
    validateInputs fractionalInput = true ∧
    validateErrors fractionalInput =
      { licenseCost := none, numUsers := none, hoursSaved := none,
        hourlyRate := none, implementationCost := none, timeToValue := none } ∧
    (calculations fractionalInput).annualSavings = .fin 29250 ∧
    (calculations fractionalInput).annualLicenseCost = .fin 900 ∧
    ∀ j : Inputs, ((validateErrors j).numUsers.isSome = true ↔ j.numUsers < 1) := by
  refine ⟨rfl, ?_, fractionalInput_valid, ?_, by rw [calculations_fractional],
    by rw [calculations_fractional], ?_⟩
  · rintro ⟨n, hn⟩
    have h2 : (3 : ℚ) / 2 = (n : ℚ) := hn
    have h3 : (3 : ℚ) = 2 * (n : ℚ) := by
      field_simp at h2
      linarith
    have h4 : (3 : ℤ) = 2 * n := by
      exact_mod_cast h3
    omega
  · simp only [validateErrors, fractionalInput]
    norm_num
  · intro j
    simp only [validateErrors]
    split_ifs with hc <;> simp [hc]
